import Mathlib

/-!
Verification of the `reporter` module (src/py/reporter/__init__.py): a
severity-gated fan-out dispatcher (`Reporter` and its per-severity emission
methods, registration/unregistration of delegates, level cascading, template
tables) and the queue-backed relay consumer (`BeanstalkWorker._iterate` /
`_process`).

Modelling conventions:
* Severity levels are the module-level integer constants.
* Python format strings such as `"ERR {0}│{2}│{3}"` are embedded as lists of
  `FmtPart` (literal pieces and positional-argument slots), rendered by
  `renderFmt` against the positional argument list
  `[timestamp, code-or-dash, component, message]` that every emission method
  passes to `str.format`.
* A `Reporter` instance is a tree node `⟨id, cls, level, template, delegates⟩`.
  `id` stands for Python object identity (two distinct live instances never
  share an `id`), and `cls` stands for the runtime class used by
  `Reporter.has` for type-based deduplication.
* Mutation is modelled by state passing: each Python method that mutates
  `self` becomes a function returning the updated node.
* Emission methods return `Except Unit (String × Option (Nat × String))`:
  `.error ()` models an uncaught Python `IndexError` from `self.TEMPLATE[L]`
  when the template table is too short; `.ok (ret, sent)` carries the value
  `return`ed to the caller and, when the threshold gate passed, the
  `(level, rendered)` pair handed to `self._send`.  The `color` keyword only
  affects the excluded console leaf sinks and is dropped.
* Messages are taken as strings, matching the spec signature of the emission
  API; `ensure_unicode` is the identity on `str` input (its `bytes` branch
  decodes UTF-8 and is outside the string-typed interface).
* For the relay worker, `json.loads` is the Python standard library (an
  external collaborator); `BeanstalkWorker.iterate` therefore takes the
  outcome of deserialising the job body — `none` for a decode failure such as
  the body `"not json"`, `some v` for a parsed value `v : PyJson` — and
  returns what `_iterate` does with the job (release / delete / leave
  untouched), what it replays into the dispatcher tree, and its boolean
  result.  The `beanstalk.reserve()` exception branch is broker I/O outside
  this model.
-/

/-! ## Severity level model (module constants) -/

def DEBUG : Nat := 0
def TRACE : Nat := 1
def INFO : Nat := 2
def SUCCESS : Nat := 3
def WARNING : Nat := 4
def ERROR : Nat := 5
def EXCEPTION : Nat := 6
def FATAL : Nat := 7
def DEFAULT_LEVEL : Nat := 2

/-! ## Template tables

A Python format pattern is a sequence of literal pieces and positional
argument slots `{i}`.  `renderFmt` substitutes the argument list exactly as
`str.format` does for the patterns appearing in this module (all slots are
plain positional indices). -/

inductive FmtPart where
  | lit (s : String)
  | arg (i : Nat)
deriving DecidableEq

abbrev Fmt := List FmtPart

def renderFmt (f : Fmt) (args : List String) : String :=
  f.foldl (fun acc p => acc ++ (match p with | .lit s => s | .arg i => args.getD i "")) ""

/-- `TEMPLATE_COMPACT` from the source: note it has seven entries. -/
def TEMPLATE_COMPACT : List Fmt := [
  [.arg 3],
  [.arg 3],
  [.arg 3],
  [.lit "✔ ", .arg 3],
  [.lit "❗ ", .arg 3],
  [.lit "✘ ", .arg 3],
  [.lit "✋ ", .arg 3]
]

/-- `TEMPLATE_COMMAND` from the source: eight entries. -/
def TEMPLATE_COMMAND : List Fmt := [
  [.lit "▶▶▶ ", .arg 3],
  [.lit "─── ", .arg 3],
  [.lit "    ", .arg 3],
  [.lit " ✔  ", .arg 3],
  [.lit " !  ", .arg 3],
  [.lit "[!] ", .arg 3],
  [.lit " ⚡ ", .arg 3],
  [.lit "!!! ", .arg 3]
]

/-- `TEMPLATE_DEFAULT` from the source: eight entries; the class default. -/
def TEMPLATE_DEFAULT : List Fmt := [
  [.lit "▶▶▶ ", .arg 0, .lit "│", .arg 2, .lit "│", .arg 3],
  [.lit "─── ", .arg 0, .lit "│", .arg 2, .lit "│", .arg 3],
  [.lit " ┈  ", .arg 0, .lit "│", .arg 2, .lit "│", .arg 3],
  [.lit " ✔   ", .arg 0, .lit "│", .arg 2, .lit "│", .arg 3],
  [.lit "WRN ", .arg 0, .lit "│", .arg 2, .lit "│", .arg 3],
  [.lit "ERR ", .arg 0, .lit "│", .arg 2, .lit "│", .arg 3],
  [.lit " ⚡ ", .arg 0, .lit "│", .arg 2, .lit "│", .arg 3],
  [.lit "!!! ", .arg 0, .lit "│", .arg 2, .lit "│", .arg 3]
]

/-- `ensure_unicode`: the identity on `str` input (the `bytes` branch decodes
UTF-8; messages are strings at this interface). -/
def ensure_unicode (text : String) : String := text

/-! ## Reporter node -/

/-- A `Reporter` instance: object identity `id`, runtime class `cls`,
threshold `level` (`self.level`), template table (`self.TEMPLATE`), and
`self.delegates`. -/
inductive Reporter where
  | mk (id : Nat) (cls : Nat) (level : Nat) (template : List Fmt)
       (delegates : List Reporter)

def Reporter.id : Reporter → Nat
  | .mk i _ _ _ _ => i

def Reporter.cls : Reporter → Nat
  | .mk _ c _ _ _ => c

def Reporter.level : Reporter → Nat
  | .mk _ _ l _ _ => l

def Reporter.template : Reporter → List Fmt
  | .mk _ _ _ t _ => t

def Reporter.delegates : Reporter → List Reporter
  | .mk _ _ _ _ ds => ds

/-- The plain field assignment `reporter.level = value` (used inside
`Reporter.register`); unlike `setLevel` it does not cascade. -/
def Reporter.withLevel : Reporter → Nat → Reporter
  | .mk i c _ t ds, l => .mk i c l t ds

def Reporter.withDelegates : Reporter → List Reporter → Reporter
  | .mk i c l t _, ds => .mk i c l t ds

mutual

/-- `Reporter.setLevel`: sets `self.level` and calls `setLevel` on every
delegate (a recursive cascade over the current children). -/
def Reporter.setLevel : Reporter → Nat → Reporter
  | .mk i c _ t ds, l => .mk i c l t (setLevelAll ds l)

/-- The `for _ in self.delegates: _.setLevel(level)` loop. -/
def setLevelAll : List Reporter → Nat → List Reporter
  | [], _ => []
  | d :: ds, l => Reporter.setLevel d l :: setLevelAll ds l

end

/-- `Reporter.has(reporterClass)`: true iff some delegate's runtime class is
exactly `reporterClass`. -/
def Reporter.has (r : Reporter) (reporterClass : Nat) : Bool :=
  r.delegates.any (fun d => d.cls == reporterClass)

/-- One iteration of `Reporter.register`: `if reporter not in self.delegates`
(object identity, i.e. `id` equality) then set `reporter.level = self.level`
and append it. -/
def Reporter.registerOne (r : Reporter) (x : Reporter) : Reporter :=
  if r.delegates.any (fun d => d.id == x.id) then r
  else r.withDelegates (r.delegates ++ [x.withLevel r.level])

/-- `Reporter.register(*reporters)`: the loop over the arguments. -/
def Reporter.register (r : Reporter) (xs : List Reporter) : Reporter :=
  xs.foldl Reporter.registerOne r

/-- One iteration of `Reporter.unregister`: `assert reporter in
self.delegates` (raising otherwise, modelled as `.error`), then
`self.delegates.remove(reporter)` — removal of the first occurrence. -/
def Reporter.unregisterOne (r : Reporter) (x : Reporter) : Except String Reporter :=
  if r.delegates.any (fun d => d.id == x.id) then
    .ok (r.withDelegates (r.delegates.eraseP (fun d => d.id == x.id)))
  else
    .error "Reporter not registered as a delegate"

/-- Module-level `register(*reporter, **options)` acting on the singleton
(state-passed here): for each argument, register it unless `unique` is
requested and its runtime class is already present. `unique` defaults to
true in the source. -/
def register (r : Reporter) (xs : List Reporter) (unique : Bool) : Reporter :=
  xs.foldl (fun acc x =>
    if !unique || !(acc.has x.cls) then acc.registerOne x else acc) r

/-! ## Emission API

Each per-severity method reads `if L >= self.level`, and when the gate
passes, reassigns `message = ensure_unicode(message)`, renders
`self.TEMPLATE[L].format(timestamp, code or "-", component, message)` and
invokes `self._send`.  The result is `.ok (ret, sent)` where `ret` is the
value returned to the caller and `sent` the `(level, rendered)` argument of
the `_send` call (`none` when the gate rejected); `.error ()` is the
`IndexError` raised by `self.TEMPLATE[L]` on a too-short table.  `ts` is the
string `self.timestamp()` returned by the clock. -/

/-- `code or "-"` / falsy-component handling: Python treats `None` and `""`
as falsy. -/
def orDash : Option String → String
  | none => "-"
  | some s => if s = "" then "-" else s

/-- `Reporter._getComponent` restricted to string-or-absent components: falsy
(absent or empty) becomes `"-"`, a string is returned as is.  (The
`__name__` branches concern non-string components outside this interface.) -/
def Reporter.getComponent (component : Option String) : String :=
  orDash component

def Reporter.debug (r : Reporter) (ts message : String)
    (component code : Option String) : Except Unit (String × Option (Nat × String)) :=
  if DEBUG ≥ r.level then
    match r.template.get? DEBUG with
    | some f =>
      let m := ensure_unicode message
      .ok (m, some (DEBUG, renderFmt f [ts, orDash code, Reporter.getComponent component, m]))
    | none => .error ()
  else .ok (message, none)

def Reporter.trace (r : Reporter) (ts message : String)
    (component code : Option String) : Except Unit (String × Option (Nat × String)) :=
  if TRACE ≥ r.level then
    match r.template.get? TRACE with
    | some f =>
      let m := ensure_unicode message
      .ok (m, some (TRACE, renderFmt f [ts, orDash code, Reporter.getComponent component, m]))
    | none => .error ()
  else .ok (message, none)

def Reporter.info (r : Reporter) (ts message : String)
    (component code : Option String) : Except Unit (String × Option (Nat × String)) :=
  if INFO ≥ r.level then
    match r.template.get? INFO with
    | some f =>
      let m := ensure_unicode message
      .ok (m, some (INFO, renderFmt f [ts, orDash code, Reporter.getComponent component, m]))
    | none => .error ()
  else .ok (message, none)

/-- `Reporter.success` gates on `SUCCESS`, formats with `TEMPLATE[SUCCESS]`,
but passes `ERROR` — not `SUCCESS` — as the level of the `_send` call, as the
source does on line 223. -/
def Reporter.success (r : Reporter) (ts message : String)
    (component code : Option String) : Except Unit (String × Option (Nat × String)) :=
  if SUCCESS ≥ r.level then
    match r.template.get? SUCCESS with
    | some f =>
      let m := ensure_unicode message
      .ok (m, some (ERROR, renderFmt f [ts, orDash code, Reporter.getComponent component, m]))
    | none => .error ()
  else .ok (message, none)

def Reporter.warning (r : Reporter) (ts message : String)
    (component code : Option String) : Except Unit (String × Option (Nat × String)) :=
  if WARNING ≥ r.level then
    match r.template.get? WARNING with
    | some f =>
      let m := ensure_unicode message
      .ok (m, some (WARNING, renderFmt f [ts, orDash code, Reporter.getComponent component, m]))
    | none => .error ()
  else .ok (message, none)

/-- `Reporter.warn` delegates to `warning`. -/
def Reporter.warn (r : Reporter) (ts message : String)
    (component code : Option String) : Except Unit (String × Option (Nat × String)) :=
  r.warning ts message component code

def Reporter.error (r : Reporter) (ts message : String)
    (component code : Option String) : Except Unit (String × Option (Nat × String)) :=
  if ERROR ≥ r.level then
    match r.template.get? ERROR with
    | some f =>
      let m := ensure_unicode message
      .ok (m, some (ERROR, renderFmt f [ts, orDash code, Reporter.getComponent component, m]))
    | none => .error ()
  else .ok (message, none)

def Reporter.exception (r : Reporter) (ts message : String)
    (component code : Option String) : Except Unit (String × Option (Nat × String)) :=
  if EXCEPTION ≥ r.level then
    match r.template.get? EXCEPTION with
    | some f =>
      let m := ensure_unicode message
      .ok (m, some (EXCEPTION, renderFmt f [ts, orDash code, Reporter.getComponent component, m]))
    | none => .error ()
  else .ok (message, none)

def Reporter.fatal (r : Reporter) (ts message : String)
    (component code : Option String) : Except Unit (String × Option (Nat × String)) :=
  if FATAL ≥ r.level then
    match r.template.get? FATAL with
    | some f =>
      let m := ensure_unicode message
      .ok (m, some (FATAL, renderFmt f [ts, orDash code, Reporter.getComponent component, m]))
    | none => .error ()
  else .ok (message, none)

/-! ## Fan-out (`_send` / `_forward`) -/

/-- `Reporter._forward`: invokes `delegate._send(level, message)` on every
delegate in registration order.  Observed as the list of
`(delegate id, level, message)` calls issued. -/
def Reporter.forwardCalls (r : Reporter) (level : Nat) (message : String) :
    List (Nat × Nat × String) :=
  r.delegates.map (fun d => (d.id, level, message))

/-- The base class `Reporter._send`: no node-local side effect, it only
forwards. -/
def Reporter.sendCalls (r : Reporter) (level : Nat) (message : String) :
    List (Nat × Nat × String) :=
  r.forwardCalls level message

/-! Observers over an emission outcome. -/

/-- The `(level, rendered)` argument of the `_send` invocation, if any. -/
def sentOf : Except Unit (String × Option (Nat × String)) → Option (Nat × String)
  | .ok (_, s) => s
  | .error _ => none

/-- The value returned to the caller (none on an uncaught exception). -/
def retOf : Except Unit (String × Option (Nat × String)) → Option String
  | .ok (s, _) => some s
  | .error _ => none

/-- Whether the emission invoked `_send` (hence rendered and forwarded). -/
def didSend (res : Except Unit (String × Option (Nat × String))) : Bool :=
  (sentOf res).isSome

/-- The `_send` calls the node's fan-out makes to its children for an
emission outcome: the delegates each receive the rendered message at the
sent level, in registration order; a gated-out emission forwards nothing. -/
def forwardsOf (r : Reporter) (res : Except Unit (String × Option (Nat × String))) :
    List (Nat × Nat × String) :=
  match sentOf res with
  | some (l, m) => r.sendCalls l m
  | none => []

/-! ## The queue-backed relay consumer (`BeanstalkWorker`) -/

/-- The values `json.loads` can produce (floats are not used by this wire
format and are omitted). -/
inductive PyJson where
  | null
  | bool (b : Bool)
  | num (n : Int)
  | str (s : String)
  | arr (xs : List PyJson)
  | dict (fields : List (String × PyJson))

/-- Python truthiness on a deserialised value (`not data`). -/
def pyFalsy : PyJson → Bool
  | .null => true
  | .bool b => !b
  | .num n => n == 0
  | .str s => s == ""
  | .arr xs => xs.isEmpty
  | .dict fs => fs.isEmpty

/-- `type(data) is dict`. -/
def PyJson.isDict : PyJson → Bool
  | .dict _ => true
  | _ => false

/-- `data.get(key)`: first binding of the key in a dict, else absent. -/
def dictGet : PyJson → String → Option PyJson
  | .dict fs, k => (fs.find? (fun kv => kv.1 == k)).map (fun kv => kv.2)
  | _, _ => none

/-- `data.get("type") == "reporter.Message"`: a Python `==` against a `str`
is true only for that very string. -/
def isReporterMessageTag : Option PyJson → Bool
  | some (.str s) => s == "reporter.Message"
  | _ => false

/-- What `_iterate` does with the reserved job: `release` puts it back on
the queue (requeue), `delete` acknowledges it permanently, `leave` neither
acknowledges nor requeues. -/
inductive JobAction where
  | release
  | delete
  | leave
deriving DecidableEq

structure IterResult where
  action : JobAction
  /-- The `(level, message)` replayed into the dispatcher tree by
  `REPORTER._send`, if any. -/
  dispatched : Option (PyJson × PyJson)
  /-- The boolean `_iterate` returns. -/
  returned : Bool

/-- `BeanstalkWorker._iterate` from the point where a job has been reserved:
the argument is the outcome of `json.loads(job.body)` (`none` on a decode
error).  On decode failure the job is released and `False` returned; a falsy
value, a non-dict, or a missing/unequal `"type"` tag leaves the job
untouched and returns `False`; otherwise `_process` replays
`(data["level"], data["message"])` through `REPORTER._send` and deletes the
job (`.error ()` models the `KeyError` when those keys are absent). -/
def BeanstalkWorker.iterate (parsed : Option PyJson) : Except Unit IterResult :=
  match parsed with
  | none => .ok ⟨.release, none, false⟩
  | some data =>
    if pyFalsy data || !data.isDict || !isReporterMessageTag (dictGet data "type") then
      .ok ⟨.leave, none, false⟩
    else
      match dictGet data "level", dictGet data "message" with
      | some l, some m => .ok ⟨.delete, some (l, m), true⟩
      | _, _ => .error ()

/-- Common shape of the per-severity emission methods: gate at `gateL`,
format with the template entry at index `gateL`, invoke `_send` at `sendL`.
Each method below is definitionally this at its constants (`success` is the
one whose `sendL` differs from its `gateL`). -/
def emitAt (r : Reporter) (gateL sendL : Nat) (ts m : String)
    (comp code : Option String) : Except Unit (String × Option (Nat × String)) :=
  if gateL ≥ r.level then
    match r.template.get? gateL with
    | some f =>
      let u := ensure_unicode m
      .ok (u, some (sendL, renderFmt f [ts, orDash code, Reporter.getComponent comp, u]))
    | none => .error ()
  else .ok (m, none)

/-- Number of delegates whose runtime class is `reporterClass`. -/
def countClass (r : Reporter) (reporterClass : Nat) : Nat :=
  r.delegates.countP (fun d => d.cls == reporterClass)

/-- The object identities of a node's delegates, in registration order. -/
def Reporter.delegateIds (r : Reporter) : List Nat :=
  r.delegates.map Reporter.id

/-! ## Basic lemmas about the node accessors and mutators -/

@[simp] theorem Reporter.id_withLevel (x : Reporter) (l : Nat) :
    (x.withLevel l).id = x.id := by cases x; rfl

@[simp] theorem Reporter.cls_withLevel (x : Reporter) (l : Nat) :
    (x.withLevel l).cls = x.cls := by cases x; rfl

@[simp] theorem Reporter.level_withLevel (x : Reporter) (l : Nat) :
    (x.withLevel l).level = l := by cases x; rfl

@[simp] theorem Reporter.delegates_withDelegates (r : Reporter) (ds : List Reporter) :
    (r.withDelegates ds).delegates = ds := by cases r; rfl

@[simp] theorem Reporter.level_withDelegates (r : Reporter) (ds : List Reporter) :
    (r.withDelegates ds).level = r.level := by cases r; rfl

@[simp] theorem Reporter.cls_withDelegates (r : Reporter) (ds : List Reporter) :
    (r.withDelegates ds).cls = r.cls := by cases r; rfl

@[simp] theorem Reporter.level_setLevel (x : Reporter) (l : Nat) :
    (x.setLevel l).level = l := by
  cases x with
  | mk i c lv t ds => simp [Reporter.setLevel, Reporter.level]

@[simp] theorem Reporter.id_setLevel (x : Reporter) (l : Nat) :
    (x.setLevel l).id = x.id := by
  cases x with
  | mk i c lv t ds => simp [Reporter.setLevel, Reporter.id]

@[simp] theorem Reporter.delegates_setLevel (x : Reporter) (l : Nat) :
    (x.setLevel l).delegates = setLevelAll x.delegates l := by
  cases x with
  | mk i c lv t ds => simp [Reporter.setLevel, Reporter.delegates]

theorem level_of_mem_setLevelAll {d : Reporter} {ds : List Reporter} {l : Nat}
    (hd : d ∈ setLevelAll ds l) : d.level = l := by
  induction ds with
  | nil => simp [setLevelAll] at hd
  | cons x xs ih =>
    simp only [setLevelAll, List.mem_cons] at hd
    rcases hd with h | h
    · subst h; exact Reporter.level_setLevel x l
    · exact ih h

theorem map_id_setLevelAll (ds : List Reporter) (l : Nat) :
    (setLevelAll ds l).map Reporter.id = ds.map Reporter.id := by
  induction ds with
  | nil => rfl
  | cons x xs ih => simp [setLevelAll, ih]

/-! ## Gate behaviour of the emission shape -/

theorem emitAt_gate (r : Reporter) (gL sL : Nat) (ts m : String)
    (c cd : Option String) (h : gL < r.template.length) :
    (didSend (emitAt r gL sL ts m c cd) = true ↔ gL ≥ r.level)
    ∧ (gL < r.level → emitAt r gL sL ts m c cd = .ok (m, none)
        ∧ forwardsOf r (emitAt r gL sL ts m c cd) = [])
    ∧ (gL ≥ r.level →
        (forwardsOf r (emitAt r gL sL ts m c cd)).length = r.delegates.length) := by
  obtain ⟨f, hf⟩ : ∃ f, r.template[gL]? = some f :=
    ⟨_, List.getElem?_eq_getElem h⟩
  by_cases hg : gL ≥ r.level
  · have hnl : ¬ gL < r.level := Nat.not_lt.mpr hg
    simp [emitAt, hg, hf, didSend, sentOf, forwardsOf, Reporter.sendCalls,
      Reporter.forwardCalls, hnl]
  · have hlt : gL < r.level := Nat.lt_of_not_le hg
    simp [emitAt, hg, didSend, sentOf, forwardsOf, hlt]

theorem emitAt_ret (r : Reporter) (gL sL : Nat) (ts m : String)
    (c cd : Option String) (h : gL < r.template.length) :
    retOf (emitAt r gL sL ts m c cd) = some m := by
  obtain ⟨f, hf⟩ : ∃ f, r.template[gL]? = some f :=
    ⟨_, List.getElem?_eq_getElem h⟩
  by_cases hg : gL ≥ r.level
  · simp [emitAt, hg, hf, retOf, ensure_unicode]
  · simp [emitAt, hg, retOf]

/-- C1: for every severity L and every node with threshold T (and a template
covering the eight severities, as the class default does), the per-severity
emission function for L invokes the render-and-forward path (`_send`, which
fans out to every child) iff rank L is at least rank T; when L is strictly
below T the call performs no rendering and no forwarding and returns the
original message.  One conjunct triple per emission method, `warn` included. -/
theorem C1_emission_gates_iff_rank (r : Reporter) (ts m : String)
    (c cd : Option String) (h : 8 ≤ r.template.length) :
    ((didSend (r.debug ts m c cd) = true ↔ DEBUG ≥ r.level)
      ∧ (DEBUG < r.level → r.debug ts m c cd = .ok (m, none)
          ∧ forwardsOf r (r.debug ts m c cd) = [])
      ∧ (DEBUG ≥ r.level →
          (forwardsOf r (r.debug ts m c cd)).length = r.delegates.length))
    ∧ ((didSend (r.trace ts m c cd) = true ↔ TRACE ≥ r.level)
      ∧ (TRACE < r.level → r.trace ts m c cd = .ok (m, none)
          ∧ forwardsOf r (r.trace ts m c cd) = [])
      ∧ (TRACE ≥ r.level →
          (forwardsOf r (r.trace ts m c cd)).length = r.delegates.length))
    ∧ ((didSend (r.info ts m c cd) = true ↔ INFO ≥ r.level)
      ∧ (INFO < r.level → r.info ts m c cd = .ok (m, none)
          ∧ forwardsOf r (r.info ts m c cd) = [])
      ∧ (INFO ≥ r.level →
          (forwardsOf r (r.info ts m c cd)).length = r.delegates.length))
    ∧ ((didSend (r.success ts m c cd) = true ↔ SUCCESS ≥ r.level)
      ∧ (SUCCESS < r.level → r.success ts m c cd = .ok (m, none)
          ∧ forwardsOf r (r.success ts m c cd) = [])
      ∧ (SUCCESS ≥ r.level →
          (forwardsOf r (r.success ts m c cd)).length = r.delegates.length))
    ∧ ((didSend (r.warn ts m c cd) = true ↔ WARNING ≥ r.level)
      ∧ (WARNING < r.level → r.warn ts m c cd = .ok (m, none)
          ∧ forwardsOf r (r.warn ts m c cd) = [])
      ∧ (WARNING ≥ r.level →
          (forwardsOf r (r.warn ts m c cd)).length = r.delegates.length))
    ∧ ((didSend (r.warning ts m c cd) = true ↔ WARNING ≥ r.level)
      ∧ (WARNING < r.level → r.warning ts m c cd = .ok (m, none)
          ∧ forwardsOf r (r.warning ts m c cd) = [])
      ∧ (WARNING ≥ r.level →
          (forwardsOf r (r.warning ts m c cd)).length = r.delegates.length))
    ∧ ((didSend (r.error ts m c cd) = true ↔ ERROR ≥ r.level)
      ∧ (ERROR < r.level → r.error ts m c cd = .ok (m, none)
          ∧ forwardsOf r (r.error ts m c cd) = [])
      ∧ (ERROR ≥ r.level →
          (forwardsOf r (r.error ts m c cd)).length = r.delegates.length))
    ∧ ((didSend (r.exception ts m c cd) = true ↔ EXCEPTION ≥ r.level)
      ∧ (EXCEPTION < r.level → r.exception ts m c cd = .ok (m, none)
          ∧ forwardsOf r (r.exception ts m c cd) = [])
      ∧ (EXCEPTION ≥ r.level →
          (forwardsOf r (r.exception ts m c cd)).length = r.delegates.length))
    ∧ ((didSend (r.fatal ts m c cd) = true ↔ FATAL ≥ r.level)
      ∧ (FATAL < r.level → r.fatal ts m c cd = .ok (m, none)
          ∧ forwardsOf r (r.fatal ts m c cd) = [])
      ∧ (FATAL ≥ r.level →
          (forwardsOf r (r.fatal ts m c cd)).length = r.delegates.length)) :=
  ⟨emitAt_gate r DEBUG DEBUG ts m c cd (Nat.lt_of_lt_of_le (by decide) h),
   emitAt_gate r TRACE TRACE ts m c cd (Nat.lt_of_lt_of_le (by decide) h),
   emitAt_gate r INFO INFO ts m c cd (Nat.lt_of_lt_of_le (by decide) h),
   emitAt_gate r SUCCESS ERROR ts m c cd (Nat.lt_of_lt_of_le (by decide) h),
   emitAt_gate r WARNING WARNING ts m c cd (Nat.lt_of_lt_of_le (by decide) h),
   emitAt_gate r WARNING WARNING ts m c cd (Nat.lt_of_lt_of_le (by decide) h),
   emitAt_gate r ERROR ERROR ts m c cd (Nat.lt_of_lt_of_le (by decide) h),
   emitAt_gate r EXCEPTION EXCEPTION ts m c cd (Nat.lt_of_lt_of_le (by decide) h),
   emitAt_gate r FATAL FATAL ts m c cd (Nat.lt_of_lt_of_le (by decide) h)⟩

/-- C1 witness: on a node at threshold WARNING with the default template,
`info` is gated out — it returns the original message, sends nothing and
forwards nothing — while `error` sends. -/
theorem C1_emission_gates_iff_rank_witness :
    ((Reporter.mk 0 0 4 TEMPLATE_DEFAULT []).info "t" "ping" (some "svc") none
        = .ok ("ping", none))
    ∧ didSend ((Reporter.mk 0 0 4 TEMPLATE_DEFAULT []).error "t" "boom"
        (some "svc") (some "E1")) = true :=
  ⟨((C1_emission_gates_iff_rank (Reporter.mk 0 0 4 TEMPLATE_DEFAULT [])
      "t" "ping" (some "svc") none (by decide)).2.2.1.2.1 (by decide)).1,
   (C1_emission_gates_iff_rank (Reporter.mk 0 0 4 TEMPLATE_DEFAULT [])
      "t" "boom" (some "svc") (some "E1") (by decide)).2.2.2.2.2.2.1.1.mpr
      (by decide)⟩

/-- C2: every per-severity emission call (debug, trace, info, success, warn,
warning, error, exception, fatal) returns the original message text to the
caller, whether the call was gated out or rendered and forwarded (the base
dispatcher's fan-out has no failing sinks; the template is assumed to cover
the eight severities, as the class default does). -/
theorem C2_returns_original_message (r : Reporter) (ts m : String)
    (c cd : Option String) (h : 8 ≤ r.template.length) :
    retOf (r.debug ts m c cd) = some m
    ∧ retOf (r.trace ts m c cd) = some m
    ∧ retOf (r.info ts m c cd) = some m
    ∧ retOf (r.success ts m c cd) = some m
    ∧ retOf (r.warn ts m c cd) = some m
    ∧ retOf (r.warning ts m c cd) = some m
    ∧ retOf (r.error ts m c cd) = some m
    ∧ retOf (r.exception ts m c cd) = some m
    ∧ retOf (r.fatal ts m c cd) = some m :=
  ⟨emitAt_ret r DEBUG DEBUG ts m c cd (Nat.lt_of_lt_of_le (by decide) h),
   emitAt_ret r TRACE TRACE ts m c cd (Nat.lt_of_lt_of_le (by decide) h),
   emitAt_ret r INFO INFO ts m c cd (Nat.lt_of_lt_of_le (by decide) h),
   emitAt_ret r SUCCESS ERROR ts m c cd (Nat.lt_of_lt_of_le (by decide) h),
   emitAt_ret r WARNING WARNING ts m c cd (Nat.lt_of_lt_of_le (by decide) h),
   emitAt_ret r WARNING WARNING ts m c cd (Nat.lt_of_lt_of_le (by decide) h),
   emitAt_ret r ERROR ERROR ts m c cd (Nat.lt_of_lt_of_le (by decide) h),
   emitAt_ret r EXCEPTION EXCEPTION ts m c cd (Nat.lt_of_lt_of_le (by decide) h),
   emitAt_ret r FATAL FATAL ts m c cd (Nat.lt_of_lt_of_le (by decide) h)⟩

/-- C2 witness: an `error` call above threshold and an `info` call below
threshold both return the original message. -/
theorem C2_returns_original_message_witness :
    retOf ((Reporter.mk 0 0 4 TEMPLATE_DEFAULT []).error "t" "boom"
        (some "svc") (some "E1")) = some "boom"
    ∧ retOf ((Reporter.mk 0 0 4 TEMPLATE_DEFAULT []).info "t" "ping"
        (some "svc") none) = some "ping" :=
  ⟨(C2_returns_original_message (Reporter.mk 0 0 4 TEMPLATE_DEFAULT [])
      "t" "boom" (some "svc") (some "E1") (by decide)).2.2.2.2.2.2.1,
   (C2_returns_original_message (Reporter.mk 0 0 4 TEMPLATE_DEFAULT [])
      "t" "ping" (some "svc") none (by decide)).2.2.1⟩

/-- C3 counterexample: the claim says a child registered after `setLevel`
retains its own prior threshold until the parent cascades again, but
`Reporter.register` assigns the parent's current level to the new child at
registration: after `setLevel 5` on the parent, registering a child whose
prior threshold is 2 yields a child at threshold 5, not 2. -/
theorem C3_counterexample :
    (((Reporter.mk 0 0 2 [] []).setLevel 5).registerOne
        (Reporter.mk 1 0 2 [] [])).delegates.map Reporter.level = [5]
    ∧ (5 : Nat) ≠ 2 := by
  constructor
  · rfl
  · decide

/-- C3 amended: `setLevel T` sets the node's own threshold and, by recursive
cascade, the threshold of every currently registered child to T, preserving
the children's identities; a child registered afterwards does not keep its
prior threshold — `register` overwrites its `level` field with the parent's
current level (T) at registration time. -/
theorem C3_setLevel_cascade_amended (r : Reporter) (T : Nat) (c : Reporter)
    (hfresh : (r.setLevel T).delegates.any (fun d => d.id == c.id) = false) :
    (r.setLevel T).level = T
    ∧ (∀ d ∈ (r.setLevel T).delegates, d.level = T)
    ∧ (r.setLevel T).delegates.map Reporter.id = r.delegates.map Reporter.id
    ∧ ((r.setLevel T).registerOne c).delegates
        = (r.setLevel T).delegates ++ [c.withLevel T] := by
  refine ⟨Reporter.level_setLevel r T, ?_, ?_, ?_⟩
  · intro d hd
    rw [Reporter.delegates_setLevel] at hd
    exact level_of_mem_setLevelAll hd
  · rw [Reporter.delegates_setLevel, map_id_setLevelAll]
  · rw [Reporter.delegates_setLevel] at hfresh
    have hn : ¬ ∃ x ∈ setLevelAll r.delegates T, x.id = c.id := by
      simpa using hfresh
    simp [Reporter.registerOne, hn]

/-- C3 witness: a parent holding one child at threshold 7 is cascaded to 5;
the child's threshold becomes 5, and a fresh node registered afterwards is
appended with its level overwritten to 5. -/
theorem C3_setLevel_cascade_amended_witness :
    ((Reporter.mk 0 0 2 [] [Reporter.mk 1 0 7 [] []]).setLevel 5).level = 5
    ∧ (((Reporter.mk 0 0 2 [] [Reporter.mk 1 0 7 [] []]).setLevel 5).registerOne
        (Reporter.mk 2 0 9 [] [])).delegates
      = ((Reporter.mk 0 0 2 [] [Reporter.mk 1 0 7 [] []]).setLevel 5).delegates
        ++ [(Reporter.mk 2 0 9 [] []).withLevel 5] :=
  ⟨(C3_setLevel_cascade_amended (Reporter.mk 0 0 2 [] [Reporter.mk 1 0 7 [] []])
      5 (Reporter.mk 2 0 9 [] []) (by decide)).1,
   (C3_setLevel_cascade_amended (Reporter.mk 0 0 2 [] [Reporter.mk 1 0 7 [] []])
      5 (Reporter.mk 2 0 9 [] []) (by decide)).2.2.2⟩

/-! ## Registration lemmas -/

theorem registerOne_of_fresh (r x : Reporter)
    (hfx : ∀ d ∈ r.delegates, d.id ≠ x.id) :
    r.registerOne x = r.withDelegates (r.delegates ++ [x.withLevel r.level]) := by
  have hx : r.delegates.any (fun d => d.id == x.id) = false := by
    rw [List.any_eq_false]; intro d hd; simpa using hfx d hd
  simp [Reporter.registerOne, hx]

theorem countP_cls_eq_zero (r : Reporter) (reporterClass : Nat)
    (h : r.has reporterClass = false) :
    r.delegates.countP (fun d => d.cls == reporterClass) = 0 := by
  rw [List.countP_eq_zero]
  rw [Reporter.has, List.any_eq_false] at h
  exact h

/-- C4: the module-level `register` with `unique = true` deduplicates by
runtime type: starting from a node with no child of type τ and a fresh
instance a of type τ, registering a second instance b of the same type in
the same call appends only a, leaving exactly one child of type τ; two fresh
instances of two different absent types are both appended, in call order,
each with its level set to the parent's. -/
theorem C4_register_unique_by_type (r a b : Reporter) :
    (r.has a.cls = false → b.cls = a.cls → (∀ d ∈ r.delegates, d.id ≠ a.id) →
      countClass (register r [a, b] true) a.cls = 1)
    ∧ (r.has a.cls = false → r.has b.cls = false → b.cls ≠ a.cls →
        (∀ d ∈ r.delegates, d.id ≠ a.id) → (∀ d ∈ r.delegates, d.id ≠ b.id) →
        b.id ≠ a.id →
        (register r [a, b] true).delegates
          = r.delegates ++ [a.withLevel r.level, b.withLevel r.level]) := by
  constructor
  · intro hA hB hfa
    have e1 : register r [a, b] true =
        (if !((r.registerOne a).has b.cls) then (r.registerOne a).registerOne b
         else r.registerOne a) := by
      simp [register, List.foldl_cons, List.foldl_nil, hA]
    have e2 : (r.registerOne a).has b.cls = true := by
      rw [registerOne_of_fresh r a hfa, hB]
      simp [Reporter.has]
    rw [e1, e2]
    simp only [Bool.not_true, Bool.false_eq_true, if_false]
    rw [registerOne_of_fresh r a hfa]
    simp [countClass, List.countP_append, List.countP_cons,
      countP_cls_eq_zero r a.cls hA]
  · intro hA hB hBA hfa hfb hba
    have e1 : register r [a, b] true =
        (if !((r.registerOne a).has b.cls) then (r.registerOne a).registerOne b
         else r.registerOne a) := by
      simp [register, List.foldl_cons, List.foldl_nil, hA]
    have e2 : (r.registerOne a).has b.cls = false := by
      rw [registerOne_of_fresh r a hfa]
      simp [Reporter.has, List.any_eq_false]
      constructor
      · rw [Reporter.has, List.any_eq_false] at hB
        intro d hd
        simpa using hB d hd
      · simpa using fun h => hBA h.symm
    rw [e1, e2]
    simp only [Bool.not_false, if_true]
    rw [registerOne_of_fresh r a hfa]
    have hfb2 : ∀ d ∈ (r.withDelegates
        (r.delegates ++ [a.withLevel r.level])).delegates, d.id ≠ b.id := by
      intro d hd
      rw [Reporter.delegates_withDelegates] at hd
      rcases List.mem_append.mp hd with h | h
      · exact hfb d h
      · rcases List.mem_singleton.mp h with rfl
        simpa using fun h => hba h.symm
    rw [registerOne_of_fresh _ b hfb2]
    simp [List.append_assoc]

/-- C4 witness: on an empty root, registering two distinct instances of
type 10 with uniqueness yields exactly one child of type 10; registering an
instance of type 10 and one of type 11 appends both, in call order. -/
theorem C4_register_unique_by_type_witness :
    countClass (register (Reporter.mk 0 0 2 [] [])
        [Reporter.mk 1 10 7 [] [], Reporter.mk 2 10 7 [] []] true) 10 = 1
    ∧ (register (Reporter.mk 0 0 2 [] [])
        [Reporter.mk 1 10 7 [] [], Reporter.mk 2 11 7 [] []] true).delegates
      = [] ++ [(Reporter.mk 1 10 7 [] []).withLevel 2,
          (Reporter.mk 2 11 7 [] []).withLevel 2] :=
  ⟨(C4_register_unique_by_type (Reporter.mk 0 0 2 [] [])
      (Reporter.mk 1 10 7 [] []) (Reporter.mk 2 10 7 [] [])).1
      (by decide) (by decide) (by decide),
   (C4_register_unique_by_type (Reporter.mk 0 0 2 [] [])
      (Reporter.mk 1 10 7 [] []) (Reporter.mk 2 11 7 [] [])).2
      (by decide) (by decide) (by decide) (by decide) (by decide) (by decide)⟩

/-- C5 counterexample: on a job body that fails to deserialize (such as the
body written as not json), the worker does not delete the job — `_iterate`
calls `job.release()`, which requeues it. -/
theorem C5_counterexample :
    BeanstalkWorker.iterate none = .ok ⟨JobAction.release, none, false⟩
    ∧ JobAction.release ≠ JobAction.delete := by
  constructor
  · rfl
  · decide

/-- C5 amended: when the relay worker polls a job whose body fails to
deserialize as structured data, the job is released back onto the queue
(requeued, not acknowledged or deleted), the iteration returns false so the
worker returns to polling, and no message is replayed into the dispatcher
tree. -/
theorem C5_malformed_job_released :
    BeanstalkWorker.iterate none = .ok ⟨JobAction.release, none, false⟩ := rfl

/-- C6: a job whose body is structurally valid data but carries no
reporter.Message tag under the key named type (the key missing, or any other
value there) is dropped without processing: the job is left unacknowledged,
nothing is replayed into any Reporter node, and the iteration returns false. -/
theorem C6_wrong_tag_ignored (data : PyJson)
    (h : isReporterMessageTag (dictGet data "type") = false) :
    BeanstalkWorker.iterate (some data) = .ok ⟨JobAction.leave, none, false⟩ := by
  simp [BeanstalkWorker.iterate, h]

/-- C6 witness: a dict job body with a level field but no type field is left
untouched and nothing is dispatched. -/
theorem C6_wrong_tag_ignored_witness :
    BeanstalkWorker.iterate (some (.dict [("level", .num 5)]))
      = .ok ⟨JobAction.leave, none, false⟩ :=
  C6_wrong_tag_ignored (.dict [("level", .num 5)]) rfl

/-- C7: for a node r and reporter instance c, `unregister(c)` fails with the
assertion (a PreconditionError surfaced to the caller) iff c is not
currently among the delegates; when c is a delegate, the call removes the
first occurrence of c and keeps the remaining delegates in their
registration order (the result is a sublist of the original children). -/
theorem C7_unregister_precondition (r c : Reporter) :
    (r.unregisterOne c = .error "Reporter not registered as a delegate"
      ↔ r.delegates.any (fun d => d.id == c.id) = false)
    ∧ (∀ r', r.unregisterOne c = .ok r' →
        r'.delegates = r.delegates.eraseP (fun d => d.id == c.id)
        ∧ List.Sublist r'.delegates r.delegates) := by
  by_cases hc : r.delegates.any (fun d => d.id == c.id) = true
  · constructor
    · simp [Reporter.unregisterOne, hc]
    · intro r' hr'
      simp only [Reporter.unregisterOne, hc, if_true] at hr'
      cases hr'
      case _ =>
        constructor
        · exact Reporter.delegates_withDelegates r _
        · rw [Reporter.delegates_withDelegates]
          exact List.eraseP_sublist r.delegates
  · have hc' : r.delegates.any (fun d => d.id == c.id) = false :=
      Bool.eq_false_iff.mpr hc
    constructor
    · simp [Reporter.unregisterOne, hc']
    · intro r' hr'
      simp [Reporter.unregisterOne, hc'] at hr'

/-- C7 witness: removing the first of two registered children succeeds and
leaves the second in place; unregistering from a childless node fails with
the assertion message. -/
theorem C7_unregister_precondition_witness :
    (Reporter.mk 0 0 2 [] [Reporter.mk 2 0 2 [] []]).delegates
      = (Reporter.mk 0 0 2 []
          [Reporter.mk 1 0 2 [] [], Reporter.mk 2 0 2 [] []]).delegates.eraseP
          (fun d => d.id == (Reporter.mk 1 0 2 [] []).id)
    ∧ List.Sublist (Reporter.mk 0 0 2 [] [Reporter.mk 2 0 2 [] []]).delegates
        (Reporter.mk 0 0 2 []
          [Reporter.mk 1 0 2 [] [], Reporter.mk 2 0 2 [] []]).delegates
    ∧ (Reporter.mk 0 0 2 [] []).unregisterOne (Reporter.mk 1 0 2 [] [])
        = .error "Reporter not registered as a delegate" := by
  refine ⟨?_, ?_, ?_⟩
  · exact ((C7_unregister_precondition
      (Reporter.mk 0 0 2 [] [Reporter.mk 1 0 2 [] [], Reporter.mk 2 0 2 [] []])
      (Reporter.mk 1 0 2 [] [])).2 (Reporter.mk 0 0 2 [] [Reporter.mk 2 0 2 [] []])
      rfl).1
  · exact ((C7_unregister_precondition
      (Reporter.mk 0 0 2 [] [Reporter.mk 1 0 2 [] [], Reporter.mk 2 0 2 [] []])
      (Reporter.mk 1 0 2 [] [])).2 (Reporter.mk 0 0 2 [] [Reporter.mk 2 0 2 [] []])
      rfl).2
  · exact (C7_unregister_precondition (Reporter.mk 0 0 2 [] [])
      (Reporter.mk 1 0 2 [] [])).1.mpr rfl

/-- C8: the claim says each emission method that passes the gate invokes
`_send` at exactly its own severity, in particular `success` at SUCCESS.
The code contradicts it: `Reporter.success` gates on SUCCESS and formats
with the SUCCESS template entry, but hands ERROR to `_send` — here evaluated
on a node at threshold 0 with the default template. -/
theorem C8_success_sends_error_level :
    (sentOf ((Reporter.mk 0 0 0 TEMPLATE_DEFAULT []).success
        "2021-05-04T00:00:00" "ok" (some "svc") none)).map Prod.fst = some ERROR
    ∧ ERROR ≠ SUCCESS := by
  constructor
  · rfl
  · decide

/-- C9 counterexample: not every template table has one entry per defined
severity — `TEMPLATE_COMPACT` has seven entries, so it has no entry at index
FATAL and a render at FATAL indexes past its end. -/
theorem C9_counterexample :
    TEMPLATE_COMPACT.length = 7
    ∧ TEMPLATE_COMPACT.length ≠ 8
    ∧ TEMPLATE_COMPACT.get? FATAL = none := by
  refine ⟨rfl, by decide, rfl⟩

/-- C9 amended: `TEMPLATE_DEFAULT` and `TEMPLATE_COMMAND` have exactly one
entry per defined severity (eight, indices DEBUG through FATAL, so a render
at any defined severity stays in range), while `TEMPLATE_COMPACT` has only
seven (DEBUG through EXCEPTION): it has no entry at index FATAL, and a
`fatal` emission through it raises an IndexError instead of rendering. -/
theorem C9_template_lengths_amended :
    TEMPLATE_DEFAULT.length = 8
    ∧ TEMPLATE_COMMAND.length = 8
    ∧ TEMPLATE_COMPACT.length = 7
    ∧ ((List.range 8).all (fun L => (TEMPLATE_DEFAULT.get? L).isSome)) = true
    ∧ ((List.range 8).all (fun L => (TEMPLATE_COMMAND.get? L).isSome)) = true
    ∧ ((List.range 7).all (fun L => (TEMPLATE_COMPACT.get? L).isSome)) = true
    ∧ TEMPLATE_COMPACT.get? FATAL = none
    ∧ (Reporter.mk 0 0 0 TEMPLATE_COMPACT []).fatal "t" "m" none none
        = .error () := by
  refine ⟨rfl, rfl, rfl, by decide, by decide, by decide, rfl, rfl⟩

/-! ## No-duplicate-delegates invariant -/

theorem registerOne_delegateIds_nodup (r c : Reporter)
    (h : r.delegateIds.Nodup) : (r.registerOne c).delegateIds.Nodup := by
  by_cases hc : r.delegates.any (fun d => d.id == c.id) = true
  · simpa [Reporter.registerOne, hc] using h
  · have hc' : r.delegates.any (fun d => d.id == c.id) = false :=
      Bool.eq_false_iff.mpr hc
    have hnotin : c.id ∉ r.delegates.map Reporter.id := by
      rw [List.any_eq_false] at hc'
      intro hmem
      rcases List.mem_map.mp hmem with ⟨d, hd, hid⟩
      exact hc' d hd (by simpa using hid)
    simp only [Reporter.registerOne, hc', Bool.false_eq_true, if_false]
    rw [Reporter.delegateIds] at h ⊢
    rw [Reporter.delegates_withDelegates, List.map_append]
    simp [List.nodup_append, h, hnotin]

theorem register_delegateIds_nodup (r : Reporter) (xs : List Reporter)
    (h : r.delegateIds.Nodup) : (r.register xs).delegateIds.Nodup := by
  induction xs generalizing r with
  | nil => exact h
  | cons x xs ih =>
    rw [Reporter.register, List.foldl_cons]
    exact ih (r.registerOne x) (registerOne_delegateIds_nodup r x h)

/-- C10: a node's delegates never contain the same instance twice.
`Reporter.register` appends an instance only when its identity is not yet
among the delegates (a no-op otherwise, even without type-based uniqueness),
and `unregister` only removes, so distinctness of delegate identities is
preserved by every register/unregister call. -/
theorem C10_no_duplicate_delegates (r : Reporter) (xs : List Reporter)
    (c : Reporter) :
    (r.delegates.any (fun d => d.id == c.id) = true → r.registerOne c = r)
    ∧ (r.delegateIds.Nodup → (r.register xs).delegateIds.Nodup)
    ∧ (r.delegateIds.Nodup → ∀ r', r.unregisterOne c = .ok r' →
        r'.delegateIds.Nodup) := by
  refine ⟨?_, register_delegateIds_nodup r xs, ?_⟩
  · intro hc
    simp [Reporter.registerOne, hc]
  · intro h r' hr'
    by_cases hc : r.delegates.any (fun d => d.id == c.id) = true
    · simp only [Reporter.unregisterOne, hc, if_true] at hr'
      cases hr'
      rw [Reporter.delegateIds, Reporter.delegates_withDelegates]
      exact h.sublist ((List.eraseP_sublist r.delegates).map Reporter.id)
    · have hc' : r.delegates.any (fun d => d.id == c.id) = false :=
        Bool.eq_false_iff.mpr hc
      simp [Reporter.unregisterOne, hc'] at hr'

/-- C10 witness: registering an already-present instance is a no-op;
registering a fresh instance and unregistering a present one both keep the
delegate identities duplicate-free. -/
theorem C10_no_duplicate_delegates_witness :
    ((Reporter.mk 0 0 2 [] [Reporter.mk 1 0 2 [] []]).registerOne
        (Reporter.mk 1 0 5 [] [])
      = Reporter.mk 0 0 2 [] [Reporter.mk 1 0 2 [] []])
    ∧ ((Reporter.mk 0 0 2 [] [Reporter.mk 1 0 2 [] []]).register
        [Reporter.mk 2 0 5 [] []]).delegateIds.Nodup
    ∧ (Reporter.mk 0 0 2 [] [Reporter.mk 2 0 2 [] []]).delegateIds.Nodup := by
  refine ⟨?_, ?_, ?_⟩
  · exact (C10_no_duplicate_delegates (Reporter.mk 0 0 2 [] [Reporter.mk 1 0 2 [] []])
      [] (Reporter.mk 1 0 5 [] [])).1 (by decide)
  · exact (C10_no_duplicate_delegates (Reporter.mk 0 0 2 [] [Reporter.mk 1 0 2 [] []])
      [Reporter.mk 2 0 5 [] []] (Reporter.mk 1 0 5 [] [])).2.1 (by decide)
  · exact (C10_no_duplicate_delegates
      (Reporter.mk 0 0 2 [] [Reporter.mk 1 0 2 [] [], Reporter.mk 2 0 2 [] []])
      [] (Reporter.mk 1 0 2 [] [])).2.2 (by decide)
      (Reporter.mk 0 0 2 [] [Reporter.mk 2 0 2 [] []]) rfl
